import Mathlib

/-!
Shallow embedding of the `batty` battery-threshold tool (Rust sources
`thresholds.rs`, `battery.rs`, `tui.rs`) and proofs about the claims on
its threshold/battery state model.

The filesystem is modelled as a total map from path strings to file
states; reads can fail with `NotFound` (absent file) or
`PermissionDenied` (present but unreadable file), writes are modelled as
always succeeding map updates (write failures are outside the scope of
the properties proved here, which concern successful persistence).
-/

/-- State of one file in the modelled pseudo-filesystem. -/
inductive FileState
  | absent
  | unreadable
  | content (s : String)
  deriving DecidableEq

/-- A filesystem: a total map from path strings to file states. -/
abbrev FS := String → FileState

/-- Error kinds of `std::io::ErrorKind` used by this program. -/
inductive IOErrorKind
  | NotFound
  | PermissionDenied
  | InvalidData
  deriving DecidableEq

/-- Models `std::io::Error`: a kind plus the display message. -/
structure IOError where
  kind : IOErrorKind
  msg : String
  deriving DecidableEq

/-- Models `std::fs::read_to_string`: absent files give `NotFound`,
unreadable files give `PermissionDenied` (with OS-style messages). -/
def read_to_string (fs : FS) (path : String) : Except IOError String :=
  match fs path with
  | FileState.content s => Except.ok s
  | FileState.absent =>
      Except.error ⟨IOErrorKind.NotFound, "No such file or directory (os error 2)"⟩
  | FileState.unreadable =>
      Except.error ⟨IOErrorKind.PermissionDenied, "Permission denied (os error 13)"⟩

/-- Models `Path::exists` for this filesystem. -/
def path_exists (fs : FS) (path : String) : Bool :=
  match fs path with
  | FileState.absent => false
  | _ => true

/-- Models `str::trim` on the underlying character list. -/
def trim_chars (l : List Char) : List Char :=
  ((l.dropWhile Char.isWhitespace).reverse.dropWhile Char.isWhitespace).reverse

/-- Models `str::trim`. -/
def rust_trim (s : String) : String :=
  String.mk (trim_chars s.data)

/-- Value of an ASCII decimal digit character, if it is one. -/
def digit_val (c : Char) : Option Nat :=
  if '0' ≤ c ∧ c ≤ '9' then some (c.toNat - '0'.toNat) else none

/-- Accumulating decimal parser over a character list; fails on any
non-digit character. -/
def parse_digits : List Char → Nat → Option Nat
  | [], acc => some acc
  | c :: rest, acc =>
      match digit_val c with
      | some d => parse_digits rest (acc * 10 + d)
      | none => none

/-- Models `str::parse::<uN>` for an unsigned integer type with maximum
value `maxVal`: a non-empty all-digit string whose value fits the type
(the optional leading sign accepted by Rust is not modelled; no claim
involves signed input text). -/
def parse_num (s : String) (maxVal : Nat) : Option Nat :=
  match s.data with
  | [] => none
  | _ =>
      match parse_digits s.data 0 with
      | some n => if n ≤ maxVal then some n else none
      | none => none

/-- Maximum value of `u8`. -/
def u8_max : Nat := 255

/-- Maximum value of `u32`. -/
def u32_max : Nat := 4294967295

/-- Models `ThresholdKind` from `thresholds.rs`. -/
inductive ThresholdKind
  | Start
  | End
  deriving DecidableEq

/-- Models `Thresholds` from `thresholds.rs`: `u8` values as `Nat`
(reads enforce the `u8` range at the parsing boundary). -/
structure Thresholds where
  start : Nat
  «end» : Nat
  deriving DecidableEq

/-- Models `get_path_for_kind` from `thresholds.rs`. -/
def get_path_for_kind (base_path : String) (kind : ThresholdKind) : String :=
  match kind with
  | ThresholdKind.Start => base_path ++ "/charge_control_start_threshold"
  | ThresholdKind.End => base_path ++ "/charge_control_end_threshold"

/-- Models `read_threshold` from `thresholds.rs`: read the file, trim,
parse as `u8`; a parse failure is an `InvalidData` error carrying the
offending trimmed text. -/
def read_threshold (fs : FS) (path : String) : Except IOError Nat :=
  match read_to_string fs path with
  | Except.error e => Except.error e
  | Except.ok current =>
      let trimmed := rust_trim current
      match parse_num trimmed u8_max with
      | some v => Except.ok v
      | none =>
          Except.error ⟨IOErrorKind.InvalidData, "invalid threshold value: " ++ trimmed⟩

/-- Models `write_threshold` from `thresholds.rs` (`fs::write` of the
decimal text, overwriting; returns the updated filesystem). -/
def write_threshold (fs : FS) (path : String) (value : Nat) : FS :=
  fun p => if p = path then FileState.content (Nat.repr value) else fs p

/-- Models `Thresholds::load`: read the start threshold (a `NotFound`
failure defaults it to 0, any other failure is fatal), then the end
threshold (any failure fatal). -/
def Thresholds.load (fs : FS) (base_path : String) : Except IOError Thresholds :=
  let start_path := get_path_for_kind base_path ThresholdKind.Start
  let end_path := get_path_for_kind base_path ThresholdKind.End
  match read_threshold fs start_path with
  | Except.ok start =>
      match read_threshold fs end_path with
      | Except.ok e => Except.ok ⟨start, e⟩
      | Except.error err => Except.error err
  | Except.error err =>
      if err.kind = IOErrorKind.NotFound then
        match read_threshold fs end_path with
        | Except.ok e => Except.ok ⟨0, e⟩
        | Except.error err2 => Except.error err2
      else Except.error err

/-- Models `Thresholds::save`: write the start threshold only if its
file exists, then write the end threshold unconditionally. -/
def Thresholds.save (t : Thresholds) (fs : FS) (base_path : String) : FS :=
  let start_path := get_path_for_kind base_path ThresholdKind.Start
  let end_path := get_path_for_kind base_path ThresholdKind.End
  let fs1 := if path_exists fs start_path then write_threshold fs start_path t.start else fs
  write_threshold fs1 end_path t.«end»

/-- Models `Thresholds::get`. -/
def Thresholds.get (t : Thresholds) (kind : ThresholdKind) : Nat :=
  match kind with
  | ThresholdKind.Start => t.start
  | ThresholdKind.End => t.«end»

/-- Models `Thresholds::set`, which mutates `self` and returns
`Result<(), String>`: here the post-state is returned paired with the
error message (`none` means `Ok`). -/
def Thresholds.set (t : Thresholds) (kind : ThresholdKind) (value : Nat) :
    Thresholds × Option String :=
  if value > 100 then
    (t, some "threshold must be between 0 and 100")
  else
    match kind with
    | ThresholdKind.Start =>
        if value ≥ t.«end» then
          (t, some "start threshold must be less than end threshold")
        else
          ({ t with start := value }, none)
    | ThresholdKind.End =>
        if value ≤ t.start then
          (t, some "end threshold must be greater than start threshold")
        else
          ({ t with «end» := value }, none)

/-- Models `impl Default for Thresholds`. -/
def Thresholds.defaultPair : Thresholds := ⟨40, 80⟩

/-- C1: `set(Start, v)` errors exactly when `v > 100` or `v ≥ end`;
`set(End, v)` errors exactly when `v > 100` or `v ≤ start`; on error the
pair is unchanged; on success only the targeted field changes, to `v`. -/
theorem thresholds_set_spec (t : Thresholds) (v : Nat) :
    ((Thresholds.set t ThresholdKind.Start v).2.isSome = true ↔ 100 < v ∨ t.«end» ≤ v) ∧
    ((Thresholds.set t ThresholdKind.End v).2.isSome = true ↔ 100 < v ∨ v ≤ t.start) ∧
    (∀ k, (Thresholds.set t k v).2.isSome = true → (Thresholds.set t k v).1 = t) ∧
    ((Thresholds.set t ThresholdKind.Start v).2 = none →
      (Thresholds.set t ThresholdKind.Start v).1 = ⟨v, t.«end»⟩) ∧
    ((Thresholds.set t ThresholdKind.End v).2 = none →
      (Thresholds.set t ThresholdKind.End v).1 = ⟨t.start, v⟩) := by
  obtain ⟨s, e⟩ := t
  refine ⟨?_, ?_, ?_, ?_, ?_⟩
  · simp only [Thresholds.set]
    split_ifs <;> simp_all
  · simp only [Thresholds.set]
    split_ifs <;> simp_all
  · intro k
    cases k <;> simp only [Thresholds.set] <;> split_ifs <;> simp_all
  · simp only [Thresholds.set]
    split_ifs <;> simp_all
  · simp only [Thresholds.set]
    split_ifs <;> simp_all

/-- Witness for C1 at a concrete input. -/
theorem thresholds_set_spec_witness :
    ((Thresholds.set ⟨40, 80⟩ ThresholdKind.Start 90).2.isSome = true ↔
      100 < 90 ∨ (80 : Nat) ≤ 90) ∧
    ((Thresholds.set ⟨40, 80⟩ ThresholdKind.End 90).2.isSome = true ↔
      100 < 90 ∨ (90 : Nat) ≤ 40) ∧
    (∀ k, (Thresholds.set ⟨40, 80⟩ k 90).2.isSome = true →
      (Thresholds.set ⟨40, 80⟩ k 90).1 = ⟨40, 80⟩) ∧
    ((Thresholds.set ⟨40, 80⟩ ThresholdKind.Start 90).2 = none →
      (Thresholds.set ⟨40, 80⟩ ThresholdKind.Start 90).1 = ⟨90, 80⟩) ∧
    ((Thresholds.set ⟨40, 80⟩ ThresholdKind.End 90).2 = none →
      (Thresholds.set ⟨40, 80⟩ ThresholdKind.End 90).1 = ⟨40, 90⟩) :=
  thresholds_set_spec ⟨40, 80⟩ 90

/-- Appending different suffixes to the same string gives different
strings. -/
theorem append_ne (s a b : String) (h : a ≠ b) : s ++ a ≠ s ++ b := by
  intro heq
  apply h
  have hd := congrArg String.data heq
  simp only [String.data_append] at hd
  exact String.ext (List.append_cancel_left hd)

/-- The start- and end-threshold paths under one base never coincide. -/
theorem start_end_path_ne (base : String) :
    get_path_for_kind base ThresholdKind.Start ≠ get_path_for_kind base ThresholdKind.End := by
  simp only [get_path_for_kind]
  exact append_ne base _ _ (by decide)

set_option maxRecDepth 10000 in
/-- Serialize/parse round-trip for every value of `u8`. -/
theorem parse_roundtrip : ∀ n, n < 256 → parse_num (rust_trim (Nat.repr n)) u8_max = some n := by
  decide

/-- Reading a threshold file just written with `n < 256` yields `n`. -/
theorem read_threshold_write_same (fs : FS) (p : String) (n : Nat) (hn : n < 256) :
    read_threshold (write_threshold fs p n) p = Except.ok n := by
  have hparse := parse_roundtrip n hn
  simp [read_threshold, write_threshold, read_to_string, hparse]

/-- A threshold write leaves every other path untouched. -/
theorem write_threshold_other (fs : FS) (p q : String) (n : Nat) (h : q ≠ p) :
    write_threshold fs p n q = fs q := by
  simp [write_threshold, h]

/-- `read_threshold` depends only on the file at its path. -/
theorem read_threshold_congr (fs fs2 : FS) (p : String) (h : fs p = fs2 p) :
    read_threshold fs p = read_threshold fs2 p := by
  simp [read_threshold, read_to_string, h]

/-- C2: after any successful `set` (from any prior pair, validated or
not), the ordering invariant `start < end` holds. -/
theorem thresholds_set_preserves_order (t : Thresholds) (k : ThresholdKind) (v : Nat)
    (h : (Thresholds.set t k v).2 = none) :
    (Thresholds.set t k v).1.start < (Thresholds.set t k v).1.«end» := by
  obtain ⟨s, e⟩ := t
  cases k <;> simp only [Thresholds.set] at h ⊢ <;> split_ifs at h ⊢ <;> simp_all

/-- Witness for C2 at a concrete input. -/
theorem thresholds_set_preserves_order_witness :
    (Thresholds.set ⟨40, 80⟩ ThresholdKind.Start 50).2 = none ∧
    (Thresholds.set ⟨40, 80⟩ ThresholdKind.Start 50).1.start <
      (Thresholds.set ⟨40, 80⟩ ThresholdKind.Start 50).1.«end» :=
  ⟨by decide, thresholds_set_preserves_order ⟨40, 80⟩ ThresholdKind.Start 50 (by decide)⟩

/-- C3 counterexample: on a base path with an end-threshold file but no
start-threshold file, `save` of `{start 40, end 80}` followed by `load`
yields `{start 0, end 80}`, not the saved pair (`save` skips the missing
start file and `load` defaults the missing start to 0). -/
theorem thresholds_roundtrip_counterexample :
    Thresholds.load
      (Thresholds.save ⟨40, 80⟩
        (fun p => if p = "BAT0/charge_control_end_threshold" then FileState.content "80"
          else FileState.absent) "BAT0") "BAT0" = Except.ok ⟨0, 80⟩ ∧
    Thresholds.mk 0 80 ≠ ⟨40, 80⟩ := by
  exact ⟨rfl, by decide⟩

/-- C3 (amended): for `start < end ≤ 100`, `save` followed by `load` on
the same base path returns the saved pair, provided the start-threshold
file exists at that path (when it does not, `save` skips the start value
and `load` defaults it to 0, so the round-trip then holds only for
`start = 0`). -/
theorem thresholds_roundtrip_amended (s e : Nat) (fs : FS) (base : String)
    (hse : s < e) (he : e ≤ 100)
    (hstart : path_exists fs (get_path_for_kind base ThresholdKind.Start) = true) :
    Thresholds.load (Thresholds.save ⟨s, e⟩ fs base) base = Except.ok ⟨s, e⟩ := by
  have hne := start_end_path_ne base
  have h1 : Thresholds.save ⟨s, e⟩ fs base =
      write_threshold (write_threshold fs (get_path_for_kind base ThresholdKind.Start) s)
        (get_path_for_kind base ThresholdKind.End) e := by
    simp only [Thresholds.save, hstart, if_true]
  have hrs : read_threshold (Thresholds.save ⟨s, e⟩ fs base)
      (get_path_for_kind base ThresholdKind.Start) = Except.ok s := by
    rw [h1, read_threshold_congr _ _ _ (write_threshold_other _ _ _ _ hne)]
    exact read_threshold_write_same _ _ _ (by omega)
  have hre : read_threshold (Thresholds.save ⟨s, e⟩ fs base)
      (get_path_for_kind base ThresholdKind.End) = Except.ok e := by
    rw [h1]
    exact read_threshold_write_same _ _ _ (by omega)
  simp only [Thresholds.load, hrs, hre]

/-- Filesystem for the C3 witness: both threshold files present. -/
def fs_roundtrip_w : FS := fun p =>
  if p = "BAT0/charge_control_start_threshold" then FileState.content "40"
  else if p = "BAT0/charge_control_end_threshold" then FileState.content "80"
  else FileState.absent

/-- Witness for the amended C3 at a concrete filesystem. -/
theorem thresholds_roundtrip_amended_witness :
    (40 : Nat) < 80 ∧ (80 : Nat) ≤ 100 ∧
    path_exists fs_roundtrip_w (get_path_for_kind "BAT0" ThresholdKind.Start) = true ∧
    Thresholds.load (Thresholds.save ⟨40, 80⟩ fs_roundtrip_w "BAT0") "BAT0" =
      Except.ok ⟨40, 80⟩ :=
  ⟨by decide, by decide, by decide,
    thresholds_roundtrip_amended 40 80 fs_roundtrip_w "BAT0" (by decide) (by decide) (by decide)⟩

/-- C6: with the end-threshold file holding "80" and the start-threshold
file absent, `load` returns `{start 0, end 80}`, and `save` of that pair
writes only the end-threshold file: the start path stays absent and
every path other than the end path is untouched. -/
theorem thresholds_lenient_load_save (fs : FS) (base : String)
    (hs : fs (get_path_for_kind base ThresholdKind.Start) = FileState.absent)
    (he : fs (get_path_for_kind base ThresholdKind.End) = FileState.content "80") :
    Thresholds.load fs base = Except.ok ⟨0, 80⟩ ∧
    Thresholds.save ⟨0, 80⟩ fs base (get_path_for_kind base ThresholdKind.Start) =
      FileState.absent ∧
    (∀ p, p ≠ get_path_for_kind base ThresholdKind.End →
      Thresholds.save ⟨0, 80⟩ fs base p = fs p) ∧
    Thresholds.save ⟨0, 80⟩ fs base (get_path_for_kind base ThresholdKind.End) =
      FileState.content "80" := by
  have hne := start_end_path_ne base
  have hex : path_exists fs (get_path_for_kind base ThresholdKind.Start) = false := by
    simp [path_exists, hs]
  have h80 : parse_num (rust_trim "80") u8_max = some 80 := by decide
  have hsave : Thresholds.save ⟨0, 80⟩ fs base =
      write_threshold fs (get_path_for_kind base ThresholdKind.End) 80 := by
    simp only [Thresholds.save, hex, Bool.false_eq_true, if_false]
  refine ⟨?_, ?_, ?_, ?_⟩
  · simp [Thresholds.load, read_threshold, read_to_string, hs, he, h80]
  · rw [hsave, write_threshold_other _ _ _ _ hne, hs]
  · intro p hp
    rw [hsave, write_threshold_other _ _ _ _ hp]
  · rw [hsave]
    simp [write_threshold]
    decide

/-- Filesystem for the C6 witness: only the end-threshold file exists. -/
def fs_lenient_w : FS := fun p =>
  if p = "BAT0/charge_control_end_threshold" then FileState.content "80"
  else FileState.absent

/-- Witness for C6 at a concrete filesystem. -/
theorem thresholds_lenient_load_save_witness :
    fs_lenient_w (get_path_for_kind "BAT0" ThresholdKind.Start) = FileState.absent ∧
    fs_lenient_w (get_path_for_kind "BAT0" ThresholdKind.End) = FileState.content "80" ∧
    (Thresholds.load fs_lenient_w "BAT0" = Except.ok ⟨0, 80⟩ ∧
      Thresholds.save ⟨0, 80⟩ fs_lenient_w "BAT0"
        (get_path_for_kind "BAT0" ThresholdKind.Start) = FileState.absent ∧
      (∀ p, p ≠ get_path_for_kind "BAT0" ThresholdKind.End →
        Thresholds.save ⟨0, 80⟩ fs_lenient_w "BAT0" p = fs_lenient_w p) ∧
      Thresholds.save ⟨0, 80⟩ fs_lenient_w "BAT0"
        (get_path_for_kind "BAT0" ThresholdKind.End) = FileState.content "80") :=
  ⟨by decide, by decide, thresholds_lenient_load_save fs_lenient_w "BAT0" (by decide) (by decide)⟩

/-- Models `str::to_lowercase` (ASCII; the program compares against the
ASCII literal "charging"). -/
def rust_to_lowercase (s : String) : String :=
  String.mk (s.data.map Char.toLower)

/-- Models `BatteryStatus` from `battery.rs`. -/
inductive BatteryStatus
  | Charging
  | NotCharging
  | Unknown
  deriving DecidableEq

/-- Models `BatteryStatus::as_str`. -/
def BatteryStatus.as_str : BatteryStatus → String
  | BatteryStatus.Charging => "charging"
  | BatteryStatus.NotCharging => "not charging"
  | BatteryStatus.Unknown => "unknown"

/-- Models `BatteryAttribute` from `battery.rs`. -/
inductive BatteryAttribute
  | CurrPower
  | TotalPower
  | Status
  | Cycles
  deriving DecidableEq

/-- Models `BatteryAttribute::file_name`. -/
def BatteryAttribute.file_name : BatteryAttribute → String
  | BatteryAttribute.CurrPower => "energy_now"
  | BatteryAttribute.TotalPower => "energy_full"
  | BatteryAttribute.Status => "status"
  | BatteryAttribute.Cycles => "cycle_count"

/-- Models `impl Display for BatteryAttribute`. -/
def BatteryAttribute.display : BatteryAttribute → String
  | BatteryAttribute.CurrPower => "current power"
  | BatteryAttribute.TotalPower => "total power"
  | BatteryAttribute.Status => "status"
  | BatteryAttribute.Cycles => "cycle count"

/-- Last path component as a character list (`acc` accumulates the
current component). -/
def last_component : List Char → List Char → List Char
  | [], acc => acc
  | c :: rest, acc =>
      if c = '/' then last_component rest [] else last_component rest (acc ++ [c])

/-- Models `Path::file_name` for the ordinary paths this program uses
(no trailing-slash or `..` handling). -/
def path_file_name (path : String) : Option String :=
  match last_component path.data [] with
  | [] => none
  | comp => some (String.mk comp)

/-- The display name Battery::new derives for a battery path
(`path.file_name().and_then(to_str).unwrap_or("unknown")`). -/
def battery_name (path : String) : String :=
  (path_file_name path).getD "unknown"

/-- Models `Battery` from `battery.rs` (`u32` power values and the
optional `u8` cycle count as `Nat`; reads enforce the ranges at the
parsing boundary). -/
structure Battery where
  path : String
  total_power : Nat
  curr_power : Nat
  status : BatteryStatus
  cycles : Option Nat
  deriving DecidableEq

/-- Models `read_str_battery_attribute`: read the attribute file,
wrapping a failure with the path context. -/
def read_str_battery_attribute (fs : FS) (bat_path : String) (attr : BatteryAttribute) :
    Except IOError String :=
  let path := bat_path ++ "/" ++ attr.file_name
  match read_to_string fs path with
  | Except.ok s => Except.ok s
  | Except.error e =>
      Except.error ⟨e.kind, "Failed to read " ++ path ++ ": " ++ e.msg⟩

/-- Models `read_num_battery_attribute::<T>` for an unsigned type with
maximum value `maxVal`: read the text, trim, parse; a parse failure is
an `InvalidData` error carrying the trimmed text (the parenthesized
parse-error detail of the Rust message is elided). -/
def read_num_battery_attribute (fs : FS) (bat_path : String) (attr : BatteryAttribute)
    (maxVal : Nat) : Except IOError Nat :=
  match read_str_battery_attribute fs bat_path attr with
  | Except.error e => Except.error e
  | Except.ok val =>
      let trimmed := rust_trim val
      match parse_num trimmed maxVal with
      | some n => Except.ok n
      | none =>
          Except.error ⟨IOErrorKind.InvalidData,
            "invalid battery attribute value: " ++ trimmed⟩

/-- The status expression of `Battery::new`
(`read_str_battery_attribute(..).map(..).unwrap_or_else(..)`), paired
with the warnings it pushes: a readable text is trimmed, lowercased and
compared against "charging"; a failure becomes `Unknown` plus one
warning. -/
def battery_status_of (fs : FS) (path : String) : BatteryStatus × List String :=
  match read_str_battery_attribute fs path BatteryAttribute.Status with
  | Except.ok status_str =>
      (if rust_to_lowercase (rust_trim status_str) = "charging" then
        BatteryStatus.Charging
      else BatteryStatus.NotCharging, ([] : List String))
  | Except.error e =>
      (BatteryStatus.Unknown,
        ["Failed to read status for " ++ battery_name path ++ ": " ++ e.msg ++
          ". Using 'unknown'."])

/-- The cycles expression of `Battery::new`
(`read_num_battery_attribute(..).ok()`). -/
def battery_cycles_of (fs : FS) (path : String) : Option Nat :=
  match read_num_battery_attribute fs path BatteryAttribute.Cycles u8_max with
  | Except.ok n => some n
  | Except.error _ => none

/-- Models `Battery::new`: current power and total power are mandatory
(failures are wrapped naming the attribute and the battery and are
fatal); a status read failure downgrades to a warning and `Unknown`; a
cycle-count read failure yields `none` with no warning. -/
def Battery.new (fs : FS) (path : String) : Except IOError (Battery × List String) :=
  match read_num_battery_attribute fs path BatteryAttribute.CurrPower u32_max with
  | Except.error e =>
      Except.error ⟨e.kind,
        "Failed to read " ++ BatteryAttribute.display BatteryAttribute.CurrPower ++ " for " ++
          battery_name path ++ ": " ++ e.msg⟩
  | Except.ok curr_power =>
      match read_num_battery_attribute fs path BatteryAttribute.TotalPower u32_max with
      | Except.error e =>
          Except.error ⟨e.kind,
            "Failed to read " ++ BatteryAttribute.display BatteryAttribute.TotalPower ++ " for " ++
              battery_name path ++ ": " ++ e.msg⟩
      | Except.ok total_power =>
          Except.ok (⟨path, total_power, curr_power, (battery_status_of fs path).1,
            battery_cycles_of fs path⟩, (battery_status_of fs path).2)

/-- Models `Battery::percentage` in exact rational arithmetic. The Rust
code computes `(curr as f32 / total as f32) * 100.0`; at the inputs the
claims evaluate (50/100 and 0 with a positive total) every intermediate
`f32` value is exactly representable, so the exact value and the `f32`
value coincide there. -/
def Battery.percentage (b : Battery) : ℚ :=
  ((b.curr_power : ℚ) / (b.total_power : ℚ)) * 100

/-- Models `find_batteries`: `entries` is the directory listing of the
power-supply directory (`none` models a `read_dir` failure, which yields
an empty list); entries whose name starts with "BAT" become battery
paths. -/
def find_batteries (entries : Option (List String)) (power_supply_path : String) :
    List String :=
  match entries with
  | none => []
  | some es =>
      (es.filter (fun name => name.startsWith "BAT")).map
        (fun name => power_supply_path ++ "/" ++ name)

/-- Shape of `Battery::new` once both mandatory power reads succeed. -/
theorem battery_new_ok_eq (fs : FS) (path : String) (c t : Nat)
    (hc : read_num_battery_attribute fs path BatteryAttribute.CurrPower u32_max = Except.ok c)
    (ht : read_num_battery_attribute fs path BatteryAttribute.TotalPower u32_max = Except.ok t) :
    Battery.new fs path = Except.ok
      (⟨path, t, c, (battery_status_of fs path).1, battery_cycles_of fs path⟩,
        (battery_status_of fs path).2) := by
  simp only [Battery.new, hc, ht]

/-- C4: `Battery::new` reads current power then total power; either
failing is fatal with an error naming the attribute and the battery; a
status failure is non-fatal (status `Unknown`, exactly one warning,
whose text mentions "status"); a cycle-count failure is non-fatal
(absent count, no warning, since warnings only come from the status
read); construction succeeds whenever both power reads succeed. -/
theorem battery_new_error_handling (fs : FS) (path : String) :
    (∀ e, read_num_battery_attribute fs path BatteryAttribute.CurrPower u32_max =
        Except.error e →
      Battery.new fs path = Except.error ⟨e.kind,
        "Failed to read current power for " ++ battery_name path ++ ": " ++ e.msg⟩) ∧
    (∀ c e, read_num_battery_attribute fs path BatteryAttribute.CurrPower u32_max =
        Except.ok c →
      read_num_battery_attribute fs path BatteryAttribute.TotalPower u32_max =
        Except.error e →
      Battery.new fs path = Except.error ⟨e.kind,
        "Failed to read total power for " ++ battery_name path ++ ": " ++ e.msg⟩) ∧
    (∀ c t, read_num_battery_attribute fs path BatteryAttribute.CurrPower u32_max =
        Except.ok c →
      read_num_battery_attribute fs path BatteryAttribute.TotalPower u32_max =
        Except.ok t →
      ∃ b w, Battery.new fs path = Except.ok (b, w) ∧
        (∀ e, read_str_battery_attribute fs path BatteryAttribute.Status = Except.error e →
          b.status = BatteryStatus.Unknown ∧
          w = ["Failed to read status for " ++ battery_name path ++ ": " ++ e.msg ++
            ". Using 'unknown'."]) ∧
        (∀ e, read_num_battery_attribute fs path BatteryAttribute.Cycles u8_max =
            Except.error e →
          b.cycles = none) ∧
        (∀ s, read_str_battery_attribute fs path BatteryAttribute.Status = Except.ok s →
          w = [])) := by
  refine ⟨?_, ?_, ?_⟩
  · intro e he
    simp only [Battery.new, he, BatteryAttribute.display]
    rfl
  · intro c e hc he
    simp only [Battery.new, hc, he, BatteryAttribute.display]
    rfl
  · intro c t hc ht
    refine ⟨_, _, battery_new_ok_eq fs path c t hc ht, ?_, ?_, ?_⟩
    · intro e he
      simp [battery_status_of, he]
    · intro e he
      simp [battery_cycles_of, he]
    · intro s hs
      simp [battery_status_of, hs]

/-- Filesystem for the C4 witness: readable power values, unreadable
status file, no cycle-count file. -/
def fs_battery_w : FS := fun p =>
  if p = "/sys/class/power_supply/BAT0/energy_now" then FileState.content "50"
  else if p = "/sys/class/power_supply/BAT0/energy_full" then FileState.content "100"
  else if p = "/sys/class/power_supply/BAT0/status" then FileState.unreadable
  else FileState.absent

/-- Witness for C4: the non-fatal branch at a concrete filesystem whose
status file is unreadable and whose cycle-count file is absent. -/
theorem battery_new_error_handling_witness :
    ∃ b w, Battery.new fs_battery_w "/sys/class/power_supply/BAT0" = Except.ok (b, w) ∧
      (∀ e, read_str_battery_attribute fs_battery_w "/sys/class/power_supply/BAT0"
          BatteryAttribute.Status = Except.error e →
        b.status = BatteryStatus.Unknown ∧
        w = ["Failed to read status for " ++ battery_name "/sys/class/power_supply/BAT0" ++
          ": " ++ e.msg ++ ". Using 'unknown'."]) ∧
      (∀ e, read_num_battery_attribute fs_battery_w "/sys/class/power_supply/BAT0"
          BatteryAttribute.Cycles u8_max = Except.error e →
        b.cycles = none) ∧
      (∀ s, read_str_battery_attribute fs_battery_w "/sys/class/power_supply/BAT0"
          BatteryAttribute.Status = Except.ok s →
        w = []) :=
  (battery_new_error_handling fs_battery_w "/sys/class/power_supply/BAT0").2.2 50 100 rfl rfl

/-- C5: once the mandatory power reads succeed, the snapshot is built
and its status is `Charging` exactly when the readable status text,
trimmed and lowercased, equals "charging"; any other readable text gives
`NotCharging`; an unreadable status gives `Unknown`; in all three cases
construction succeeds (the derivation is never fatal). -/
theorem battery_status_derivation (fs : FS) (path : String) (c t : Nat)
    (hc : read_num_battery_attribute fs path BatteryAttribute.CurrPower u32_max = Except.ok c)
    (ht : read_num_battery_attribute fs path BatteryAttribute.TotalPower u32_max = Except.ok t) :
    ∃ b w, Battery.new fs path = Except.ok (b, w) ∧
      (∀ s, read_str_battery_attribute fs path BatteryAttribute.Status = Except.ok s →
        (b.status = BatteryStatus.Charging ↔ rust_to_lowercase (rust_trim s) = "charging") ∧
        (rust_to_lowercase (rust_trim s) ≠ "charging" → b.status = BatteryStatus.NotCharging)) ∧
      (∀ e, read_str_battery_attribute fs path BatteryAttribute.Status = Except.error e →
        b.status = BatteryStatus.Unknown) := by
  refine ⟨_, _, battery_new_ok_eq fs path c t hc ht, ?_, ?_⟩
  · intro s hs
    constructor
    · simp only [battery_status_of, hs]
      split_ifs with h <;> simp [h]
    · intro hne
      simp [battery_status_of, hs, hne]
  · intro e he
    simp [battery_status_of, he]

/-- Filesystem for the C5 witness: readable power values and a status
file holding "Charging" with a trailing newline. -/
def fs_charging_w : FS := fun p =>
  if p = "/sys/class/power_supply/BAT0/energy_now" then FileState.content "50"
  else if p = "/sys/class/power_supply/BAT0/energy_full" then FileState.content "100"
  else if p = "/sys/class/power_supply/BAT0/status" then FileState.content "Charging\n"
  else FileState.absent

/-- Witness for C5 at a concrete filesystem with a readable status. -/
theorem battery_status_derivation_witness :
    read_num_battery_attribute fs_charging_w "/sys/class/power_supply/BAT0"
      BatteryAttribute.CurrPower u32_max = Except.ok 50 ∧
    read_num_battery_attribute fs_charging_w "/sys/class/power_supply/BAT0"
      BatteryAttribute.TotalPower u32_max = Except.ok 100 ∧
    (∃ b w, Battery.new fs_charging_w "/sys/class/power_supply/BAT0" = Except.ok (b, w) ∧
      (∀ s, read_str_battery_attribute fs_charging_w "/sys/class/power_supply/BAT0"
          BatteryAttribute.Status = Except.ok s →
        (b.status = BatteryStatus.Charging ↔ rust_to_lowercase (rust_trim s) = "charging") ∧
        (rust_to_lowercase (rust_trim s) ≠ "charging" → b.status = BatteryStatus.NotCharging)) ∧
      (∀ e, read_str_battery_attribute fs_charging_w "/sys/class/power_supply/BAT0"
          BatteryAttribute.Status = Except.error e →
        b.status = BatteryStatus.Unknown)) :=
  ⟨rfl, rfl,
    battery_status_derivation fs_charging_w "/sys/class/power_supply/BAT0" 50 100 rfl rfl⟩

/-- C9: the percentage computation at the claimed inputs: 50 of 100
yields exactly 50, and a zero current power (with a positive total)
yields exactly 0. -/
theorem battery_percentage_values (b : Battery) :
    (b.curr_power = 50 → b.total_power = 100 → b.percentage = 50) ∧
    (b.curr_power = 0 → 0 < b.total_power → b.percentage = 0) := by
  constructor
  · intro h1 h2
    simp [Battery.percentage, h1, h2]
  · intro h1 _
    simp [Battery.percentage, h1]

/-- Witness for C9 at two concrete snapshots. -/
theorem battery_percentage_values_witness :
    Battery.percentage ⟨"BAT0", 100, 50, BatteryStatus.Unknown, none⟩ = 50 ∧
    Battery.percentage ⟨"BAT0", 100, 0, BatteryStatus.Unknown, none⟩ = 0 :=
  ⟨(battery_percentage_values ⟨"BAT0", 100, 50, BatteryStatus.Unknown, none⟩).1 rfl rfl,
    (battery_percentage_values ⟨"BAT0", 100, 0, BatteryStatus.Unknown, none⟩).2 rfl
      (by norm_num)⟩

/-- Models the `App` state of `tui.rs`. -/
structure App where
  battery : Battery
  bat_paths : List String
  base_path : String
  selected_tab : Nat
  curr_threshold_kind : ThresholdKind
  thresholds : Thresholds
  status : Option String
  error : Option String
  warnings : List String
  deriving DecidableEq

/-- Models `App::new`. `self.bat_paths[0]` panics on an empty list, so
the result is `none` in that case (a panic, distinct from the
`io::Result` error channel, which appears inside `some`). -/
def App.new (fs : FS) (bat_paths : List String) : Option (Except IOError App) :=
  match bat_paths.head? with
  | none => none
  | some initial_path =>
      let thresholds :=
        match Thresholds.load fs initial_path with
        | Except.ok t => t
        | Except.error _ => Thresholds.defaultPair
      some (match Battery.new fs initial_path with
        | Except.error e => Except.error e
        | Except.ok (battery, warnings) =>
            Except.ok ⟨battery, bat_paths, initial_path, 0, ThresholdKind.Start, thresholds,
              none, none, warnings⟩)

/-- Models `App::increment`: bump the selected threshold by one,
saturating at 100, then run `set` with the new value. -/
def App.increment (a : App) : App :=
  let current := a.thresholds.get a.curr_threshold_kind
  let new_val := if current < 100 then current + 1 else current
  match a.thresholds.set a.curr_threshold_kind new_val with
  | (t, none) => { a with thresholds := t, status := none, error := none }
  | (t, some err) => { a with thresholds := t, error := some err }

/-- Models `App::decrement`: drop the selected threshold by one,
saturating at 0, then run `set` with the new value. -/
def App.decrement (a : App) : App :=
  let current := a.thresholds.get a.curr_threshold_kind
  let new_val := current - 1
  match a.thresholds.set a.curr_threshold_kind new_val with
  | (t, none) => { a with thresholds := t, status := none, error := none }
  | (t, some err) => { a with thresholds := t, error := some err }

/-- Models `App::next_tab`: advance the tab unless already on the last
one, reloading thresholds (defaulting on failure) and the battery
snapshot (on failure: error message set, warnings cleared) for the new
path. `self.bat_paths.len() - 1` is `usize` arithmetic; for the
non-empty lists `App::new` admits it never underflows, matching `Nat`
subtraction. -/
def App.next_tab (fs : FS) (a : App) : App :=
  if a.selected_tab < a.bat_paths.length - 1 then
    let selected_tab := a.selected_tab + 1
    let base_path := a.bat_paths.getD selected_tab ""
    let thresholds :=
      match Thresholds.load fs base_path with
      | Except.ok t => t
      | Except.error _ => Thresholds.defaultPair
    match Battery.new fs base_path with
    | Except.ok (battery, warnings) =>
        { a with
          selected_tab := selected_tab
          base_path := base_path
          thresholds := thresholds
          battery := battery
          warnings := warnings
          status := none
          error := none }
    | Except.error e =>
        { a with
          selected_tab := selected_tab
          base_path := base_path
          thresholds := thresholds
          error := some ("Failed to load battery: " ++ e.msg)
          status := none
          warnings := [] }
  else a

/-- Models `App::prev_tab`: move one tab back unless already on the
first one; otherwise exactly like `next_tab`. -/
def App.prev_tab (fs : FS) (a : App) : App :=
  if a.selected_tab > 0 then
    let selected_tab := a.selected_tab - 1
    let base_path := a.bat_paths.getD selected_tab ""
    let thresholds :=
      match Thresholds.load fs base_path with
      | Except.ok t => t
      | Except.error _ => Thresholds.defaultPair
    match Battery.new fs base_path with
    | Except.ok (battery, warnings) =>
        { a with
          selected_tab := selected_tab
          base_path := base_path
          thresholds := thresholds
          battery := battery
          warnings := warnings
          status := none
          error := none }
    | Except.error e =>
        { a with
          selected_tab := selected_tab
          base_path := base_path
          thresholds := thresholds
          error := some ("Failed to load battery: " ++ e.msg)
          status := none
          warnings := [] }
  else a

/-- C7: an increment when the selected threshold is already 100, and a
decrement when it is already 0, leave the threshold pair unchanged (the
attempted adjustment saturates and is never partially applied). -/
theorem app_adjust_saturation (a : App) :
    (a.thresholds.get a.curr_threshold_kind = 100 →
      (App.increment a).thresholds = a.thresholds) ∧
    (a.thresholds.get a.curr_threshold_kind = 0 →
      (App.decrement a).thresholds = a.thresholds) := by
  obtain ⟨b, ps, bp, st, k, ⟨ts, te⟩, s0, e0, w0⟩ := a
  constructor
  · intro h
    cases k <;>
      simp_all [App.increment, Thresholds.get, Thresholds.set] <;>
      split_ifs <;> simp_all
  · intro h
    cases k <;>
      simp_all [App.decrement, Thresholds.get, Thresholds.set] <;>
      split_ifs <;> simp_all

/-- App for the C7 witness with the end threshold selected at 100. -/
def app_at_100 : App :=
  ⟨⟨"BAT0", 100, 50, BatteryStatus.Unknown, none⟩, ["BAT0"], "BAT0", 0,
    ThresholdKind.End, ⟨40, 100⟩, none, none, []⟩

/-- App for the C7 witness with the start threshold selected at 0. -/
def app_at_0 : App :=
  ⟨⟨"BAT0", 100, 50, BatteryStatus.Unknown, none⟩, ["BAT0"], "BAT0", 0,
    ThresholdKind.Start, ⟨0, 80⟩, none, none, []⟩

/-- Witness for C7 at concrete app states. -/
theorem app_adjust_saturation_witness :
    app_at_100.thresholds.get app_at_100.curr_threshold_kind = 100 ∧
    (App.increment app_at_100).thresholds = app_at_100.thresholds ∧
    app_at_0.thresholds.get app_at_0.curr_threshold_kind = 0 ∧
    (App.decrement app_at_0).thresholds = app_at_0.thresholds :=
  ⟨rfl, (app_adjust_saturation app_at_100).1 rfl, rfl,
    (app_adjust_saturation app_at_0).2 rfl⟩

/-- C8: switching tabs at the boundary of a non-empty discovered list
(next on the last tab, previous on the first) is a no-op: the entire app
state is unchanged and, since the result does not depend on the
filesystem, no reload is performed; navigation never wraps. -/
theorem app_tab_boundary_noop (fs : FS) (a : App) (hne : a.bat_paths ≠ []) :
    (a.selected_tab = a.bat_paths.length - 1 → App.next_tab fs a = a) ∧
    (a.selected_tab = 0 → App.prev_tab fs a = a) := by
  constructor
  · intro h
    simp [App.next_tab, h]
  · intro h
    simp [App.prev_tab, h]

/-- App for the C8 witness: a single battery tab, index 0. -/
def app_single_tab : App :=
  ⟨⟨"BAT0", 100, 50, BatteryStatus.Unknown, none⟩, ["BAT0"], "BAT0", 0,
    ThresholdKind.Start, ⟨40, 80⟩, none, none, []⟩

/-- Witness for C8 at a concrete app state and filesystem. -/
theorem app_tab_boundary_noop_witness :
    app_single_tab.bat_paths ≠ [] ∧
    App.next_tab (fun _ => FileState.absent) app_single_tab = app_single_tab ∧
    App.prev_tab (fun _ => FileState.absent) app_single_tab = app_single_tab :=
  ⟨by decide,
    (app_tab_boundary_noop (fun _ => FileState.absent) app_single_tab (by decide)).1 rfl,
    (app_tab_boundary_noop (fun _ => FileState.absent) app_single_tab (by decide)).2 rfl⟩

/-- C10: discovery legitimately yields the empty list when the directory
listing fails, and `App::new` on the empty list panics (`none`: no
result at all, not an `io::Result` error) because it unconditionally
indexes the first element; on any non-empty list the indexing succeeds
and a result (ok or error) is produced. -/
theorem app_new_requires_nonempty (fs : FS) (base : String) :
    find_batteries none base = [] ∧
    App.new fs (find_batteries none base) = none ∧
    (∀ ps : List String, ps ≠ [] → App.new fs ps ≠ none) := by
  refine ⟨rfl, rfl, ?_⟩
  intro ps hps
  cases ps with
  | nil => exact absurd rfl hps
  | cons p rest => simp [App.new]

/-- Witness for C10 at a concrete filesystem and base path. -/
theorem app_new_requires_nonempty_witness :
    find_batteries none "/sys/class/power_supply" = [] ∧
    App.new (fun _ => FileState.absent) (find_batteries none "/sys/class/power_supply") =
      none ∧
    (∀ ps : List String, ps ≠ [] →
      App.new (fun _ => FileState.absent) ps ≠ none) :=
  app_new_requires_nonempty (fun _ => FileState.absent) "/sys/class/power_supply"
